import Mathlib

/-!
# Verification of the Realtime-STT-Compare session core

Shallow embedding of the multi-provider realtime transcription session
manager from `voicesearch_app.py`, `azure_openai_handler.py` and
`elevenlabs_handler.py`.  Audio bytes are modelled as `List Nat`,
registries as association lists, provider sockets and timers as explicit
fields of a state record, and socket emissions as records carrying an
optional room (a `none` room is a broadcast to every connected client).
-/

namespace RSTT

/-- Raw audio bytes, modelled as a list of byte values. -/
abbrev Bytes := List Nat

/-! ## Audio framing

`send_audio_to_azure_openai` (azure_openai_handler.py, lines 674-704) and
`send_audio_to_elevenlabs` (elevenlabs_handler.py, lines 491-529) both
append the incoming chunk to the session's `audio_buffer` and then, in a
loop, pop and transmit `CHUNK_SIZE`-byte frames while at least one full
frame remains buffered.  `flushFrames` is that loop. -/

/-- `AZURE_AUDIO_CHUNK_SIZE = 1024 * 2` (azure_openai_handler.py line 49). -/
def AZURE_AUDIO_CHUNK_SIZE : Nat := 1024 * 2

/-- `ELEVENLABS_AUDIO_CHUNK_SIZE = 4096` (elevenlabs_handler.py line 43). -/
def ELEVENLABS_AUDIO_CHUNK_SIZE : Nat := 4096

/-- The frame-flushing loop shared by both handlers, with explicit fuel so
that it is structurally recursive: while the buffer holds at least
`frameSize` bytes, emit the first `frameSize` bytes as a frame and keep the
rest.  Each iteration removes at least one byte, so `buf.length` fuel always
suffices. -/
def flushFramesAux (frameSize : Nat) : Nat → Bytes → List Bytes × Bytes
  | 0, buf => ([], buf)
  | fuel + 1, buf =>
    if 0 < frameSize ∧ frameSize ≤ buf.length then
      let rest := flushFramesAux frameSize fuel (buf.drop frameSize)
      (buf.take frameSize :: rest.1, rest.2)
    else
      ([], buf)

/-- Flush all complete frames out of the buffer; return the transmitted
frames and the remaining buffer.  This is the `while` loop of both send
functions. -/
def flushFrames (frameSize : Nat) (buf : Bytes) : List Bytes × Bytes :=
  flushFramesAux frameSize buf.length buf

/-- Total number of bytes in a list of frames. -/
def totalBytes (frames : List Bytes) : Nat :=
  (frames.map List.length).sum

/-- One ready-state audio feed: append the chunk to the buffer, flush all
complete frames (the `connection_open` branch of both send functions).
Returns the transmitted frames and the new buffer. -/
def feedReady (frameSize : Nat) (buf : Bytes) (data : Bytes) : List Bytes × Bytes :=
  flushFrames frameSize (buf ++ data)

/-- Feeding a whole sequence of chunks to a ready session, starting from a
given buffer; accumulates every transmitted frame. -/
def feedSeq (frameSize : Nat) (buf : Bytes) : List Bytes → List Bytes × Bytes
  | [] => ([], buf)
  | d :: ds =>
    let step := feedReady frameSize buf d
    let rest := feedSeq frameSize step.2 ds
    (step.1 ++ rest.1, rest.2)

/-! ## Python strings

The handlers compare transcript strings for truthiness (`if text:`) and
normalize them with `str.strip()`.  `.strip()` with no argument removes
leading and trailing whitespace; it is modelled on the string's character
list. -/

/-- `str.strip()` on a character list: drop leading whitespace, then drop
trailing whitespace. -/
def pyStripChars (l : List Char) : List Char :=
  ((l.dropWhile Char.isWhitespace).reverse.dropWhile Char.isWhitespace).reverse

/-- Python `s.strip()`. -/
def pyStrip (s : String) : String :=
  ⟨pyStripChars s.data⟩

/-! ## Transport-layer emissions

`socketio.emit(event, payload, room=sid)` addresses one client; a call with
no `room` argument is a broadcast to every connected client.  Payloads are
irrelevant to the claims, so an emission is its event name and optional
room. -/

/-- One `socketio.emit` call: the event name and the optional `room`
argument (`none` means the emit had no room and is broadcast). -/
structure Emit where
  event : String
  room : Option String
  deriving DecidableEq, Repr

/-! ## ElevenLabs per-session state (elevenlabs_handler.py)

`ElevenLabsSession` (lines 49-83): timers are modelled by whether a timer is
currently pending (`threading.Timer` fires once unless cancelled), sockets
by an optional connection identifier, timestamps by whether they are set. -/

/-- The `ElevenLabsSession` object (elevenlabs_handler.py lines 49-83).
`ws` is the connection identifier (or `none`); `silence_timer` is whether a
timer is pending; `session_start_time` is whether the timestamp is set. -/
structure ElevenLabsSession where
  session_id : String
  ws : Option Nat
  connection_open : Bool
  stop_event : Bool
  session_start_time : Bool
  silence_timer : Bool
  silence_timer_started : Bool
  audio_buffer : Bytes
  current_transcript : String
  accumulated_transcript : String
  last_partial_text : String
  transcription_count : Nat
  language : String
  deriving DecidableEq, Repr

/-- A fresh `ElevenLabsSession(session_id, socketio)` as built by the
constructor (lines 50-71). -/
def ElevenLabsSession.new (sid : String) : ElevenLabsSession where
  session_id := sid
  ws := none
  connection_open := false
  stop_event := false
  session_start_time := false
  silence_timer := false
  silence_timer_started := false
  audio_buffer := []
  current_transcript := ""
  accumulated_transcript := ""
  last_partial_text := ""
  transcription_count := 0
  language := "Auto"

/-- The module-level `elevenlabs_sessions` dict (line 46), as an
association list keyed by session id. -/
abbrev Registry := List (String × ElevenLabsSession)

/-- Dictionary lookup `elevenlabs_sessions[session_id]`. -/
def lookupSession (reg : Registry) (sid : String) : Option ElevenLabsSession :=
  match reg with
  | [] => none
  | (k, s) :: rest => if k = sid then some s else lookupSession rest sid

/-- Write back a mutated session object under its key. -/
def updateSession (reg : Registry) (sid : String) (s : ElevenLabsSession) : Registry :=
  match reg with
  | [] => []
  | (k, old) :: rest =>
    if k = sid then (k, s) :: updateSession rest sid s
    else (k, old) :: updateSession rest sid s

/-- `del elevenlabs_sessions[session_id]`. -/
def eraseSession (reg : Registry) (sid : String) : Registry :=
  match reg with
  | [] => []
  | (k, old) :: rest =>
    if k = sid then eraseSession rest sid
    else (k, old) :: eraseSession rest sid

/-- `reset_elevenlabs_silence_timer` (lines 108-114): cancel any pending
timer and arm a fresh one; record that the timer has been started. -/
def reset_elevenlabs_silence_timer (s : ElevenLabsSession) : ElevenLabsSession :=
  { s with silence_timer := true, silence_timer_started := true }

/-- `stop_elevenlabs_silence_timer` (lines 116-121): cancel any pending
timer and clear the started flag. -/
def stop_elevenlabs_silence_timer (s : ElevenLabsSession) : ElevenLabsSession :=
  { s with silence_timer := false, silence_timer_started := false }

/-- `handle_elevenlabs_silence_timeout` (lines 123-185): close the socket,
reset session tracking when a start time is present, emit one
`silence_timeout` event **to the session's own room**, stop the timer.
Returns the mutated session and the emissions made. -/
def handle_elevenlabs_silence_timeout (s : ElevenLabsSession) :
    ElevenLabsSession × List Emit :=
  let s := { s with connection_open := false, stop_event := true, ws := none }
  let s :=
    if s.session_start_time then
      { s with session_start_time := false, transcription_count := 0,
               current_transcript := "", accumulated_transcript := "",
               last_partial_text := "" }
    else s
  (stop_elevenlabs_silence_timer s, [⟨"silence_timeout", some s.session_id⟩])

/-- The normalized messages `handle_elevenlabs_message` distinguishes. -/
inductive ElMessage where
  | session_started
  | partial_transcript (text : String)
  | committed_transcript (text : String)
  | commit_throttled
  | error_message (text : String)
  | other
  deriving DecidableEq, Repr

/-- `handle_elevenlabs_message` (lines 338-454).  `partial_transcript` with
non-empty text rearms the silence timer and rebuilds the display transcript
from the stripped accumulated text and the stripped partial;
`committed_transcript` (and its variants) with non-empty text appends the
stripped text to the stripped accumulated transcript with a single space
separator (no separator when the accumulated transcript is empty or
whitespace-only) and sets the display to the accumulated text.  Every emit
is addressed to `room=session.session_id`. -/
def handle_elevenlabs_message (s : ElevenLabsSession) (m : ElMessage) :
    ElevenLabsSession × List Emit :=
  match m with
  | .session_started =>
    ({ s with connection_open := true, session_start_time := true },
     [⟨"transcription_status", some s.session_id⟩])
  | .partial_transcript text =>
    if text ≠ "" then
      let s := reset_elevenlabs_silence_timer s
      let display :=
        if s.accumulated_transcript ≠ "" ∧ pyStrip s.accumulated_transcript ≠ "" then
          pyStrip s.accumulated_transcript ++ " " ++ pyStrip text
        else
          pyStrip text
      let s := { s with current_transcript := display, last_partial_text := display }
      (s, [⟨"transcription_update", some s.session_id⟩])
    else (s, [])
  | .committed_transcript text =>
    if text ≠ "" then
      let acc :=
        if s.accumulated_transcript ≠ "" ∧ pyStrip s.accumulated_transcript ≠ "" then
          pyStrip s.accumulated_transcript ++ " " ++ pyStrip text
        else
          pyStrip text
      let s := { s with accumulated_transcript := acc, current_transcript := acc,
                        transcription_count := s.transcription_count + 1 }
      let s := reset_elevenlabs_silence_timer s
      (s, [⟨"transcription_update", some s.session_id⟩])
    else (s, [])
  | .commit_throttled => (s, [])
  | .error_message _ => (s, [⟨"transcription_status", some s.session_id⟩])
  | .other => (s, [])

/-- Process a whole sequence of provider messages on one session,
discarding the emissions. -/
def runMessages (s : ElevenLabsSession) (ms : List ElMessage) : ElevenLabsSession :=
  ms.foldl (fun s m => (handle_elevenlabs_message s m).1) s

/-- How one message changes the in-progress segment: an effective partial
replaces it with its stripped text, an effective finalization clears it,
and messages the handler ignores (empty text, status and error messages)
leave it unchanged. -/
def segStep (seg : String) (m : ElMessage) : String :=
  match m with
  | .partial_transcript t => if t ≠ "" then pyStrip t else seg
  | .committed_transcript t => if t ≠ "" then "" else seg
  | _ => seg

/-- The in-progress segment a message trace leaves behind, starting from an
empty segment. -/
def currentSegment (ms : List ElMessage) : String :=
  ms.foldl segStep ""

/-- The display string the specification prescribes: the accumulated text
plus, when both parts are non-empty, a single separating space, plus the
current segment. -/
def specDisplay (acc seg : String) : String :=
  if acc ≠ "" ∧ seg ≠ "" then acc ++ " " ++ seg
  else if seg ≠ "" then seg
  else acc

/-- A transcript text the provider could reasonably deliver: either empty
(ignored by the handler) or containing at least one non-whitespace
character.  Whitespace-only non-empty texts are the degenerate case on
which the display invariant breaks. -/
def goodText (m : ElMessage) : Prop :=
  match m with
  | .partial_transcript t => t = "" ∨ pyStrip t ≠ ""
  | .committed_transcript t => t = "" ∨ pyStrip t ≠ ""
  | _ => True

instance (m : ElMessage) : Decidable (goodText m) := by
  unfold goodText
  cases m <;> infer_instance

/-- `cleanup_elevenlabs_session` (lines 92-106): when the id is registered,
cancel its timer, signal stop, close the socket and delete the entry from
the registry; unknown ids are ignored. -/
def cleanup_elevenlabs_session (reg : Registry) (sid : String) : Registry :=
  match lookupSession reg sid with
  | none => reg
  | some _ => eraseSession reg sid

/-- `send_audio_to_elevenlabs` (lines 456-542): look the session up by id
(fail when absent or without a socket); while the connection is not open,
append to the buffer under a drop-oldest cap and report `False`; otherwise
append then flush all complete `ELEVENLABS_AUDIO_CHUNK_SIZE` frames through
the session's socket, arming the silence timer on the first-ever send.
Returns the result flag, the new registry, and the frames transmitted,
each tagged with the session id whose socket carried it. -/
def send_audio_to_elevenlabs (reg : Registry) (sid : String) (data : Bytes) :
    Bool × Registry × List (String × Bytes) :=
  match lookupSession reg sid with
  | none => (false, reg, [])
  | some s =>
    match s.ws with
    | none => (false, reg, [])
    | some _ =>
      if ¬ s.connection_open then
        let buf := s.audio_buffer ++ data
        let buf :=
          if buf.length > ELEVENLABS_AUDIO_CHUNK_SIZE * 10 then
            buf.drop (buf.length - ELEVENLABS_AUDIO_CHUNK_SIZE * 5)
          else buf
        (false, updateSession reg sid { s with audio_buffer := buf }, [])
      else
        let flushed := flushFrames ELEVENLABS_AUDIO_CHUNK_SIZE (s.audio_buffer ++ data)
        let s := { s with audio_buffer := flushed.2 }
        let s :=
          if flushed.1 ≠ [] ∧ ¬ s.silence_timer_started then
            reset_elevenlabs_silence_timer s
          else s
        (true, updateSession reg sid s, flushed.1.map (fun f => (sid, f)))

/-- `close_elevenlabs_connection` (lines 544-594): unknown ids are ignored;
otherwise signal stop, mark the connection closed, stop the silence timer,
clear the audio buffer, drop and close the socket, and reset both
transcript fields.  The registry entry itself is **not** deleted. -/
def close_elevenlabs_connection (reg : Registry) (sid : String) : Registry :=
  match lookupSession reg sid with
  | none => reg
  | some s =>
    updateSession reg sid
      { s with stop_event := true, connection_open := false,
               silence_timer := false, silence_timer_started := false,
               audio_buffer := [], ws := none,
               current_transcript := "", accumulated_transcript := "" }

/-- `initialize_elevenlabs_connection` (lines 187-336), reduced to its
credential gate: the result flag and the number of provider socket
connection attempts made (`ws_connect` calls).  With the `websockets`
library missing, no session id, or no `ELEVENLABS_API_KEY`, it returns
`False` at once without attempting any connection and without any retry;
otherwise it starts exactly one connection attempt and returns `True`. -/
def initialize_elevenlabs_connection (websocketsAvailable : Bool)
    (sessionId : Option String) (apiKey : Option String) : Bool × Nat :=
  if ¬ websocketsAvailable then (false, 0)
  else
    match sessionId with
    | none => (false, 0)
    | some _ =>
      match apiKey with
      | none => (false, 0)
      | some _ => (true, 1)

/-! ## Azure OpenAI module-level state (azure_openai_handler.py)

Unlike the ElevenLabs handler, the Azure handler keeps **one** set of
module-level globals (lines 51-66) — `azure_openai_ws`,
`azure_connection_open`, `azure_audio_buffer`, `azure_silence_timer`,
`azure_current_transcript`, … — shared by every connected client.  No
function of the module takes a session id. -/

/-- A `WebSocketApp` value held in `azure_openai_ws`.  `connId` identifies
the object (successive connections get fresh ids); `openedFor` is a ghost
annotation recording which client's start request created it — the Python
object carries no such field, precisely because the module has no notion of
a session. -/
structure AzureConn where
  connId : Nat
  openedFor : String
  deriving DecidableEq, Repr

/-- The module-level globals of azure_openai_handler.py (lines 51-66). -/
structure AzureState where
  ws : Option AzureConn
  connection_open : Bool
  audio_buffer : Bytes
  silence_timer : Bool
  session_start_time : Bool
  transcription_count : Nat
  current_transcript : String
  socketio_set : Bool
  deriving DecidableEq, Repr

/-- `reset_azure_silence_timer` (lines 69-76): cancel any pending timer on
the single global timer slot and arm a fresh one. -/
def reset_azure_silence_timer (st : AzureState) : AzureState :=
  { st with silence_timer := true }

/-- `stop_azure_silence_timer` (lines 78-84): cancel the single global
timer. -/
def stop_azure_silence_timer (st : AzureState) : AzureState :=
  { st with silence_timer := false }

/-- `handle_azure_silence_timeout` (lines 86-129): close the global socket,
reset session tracking when a start time is present, emit one
`silence_timeout` event **with no `room` argument** (a broadcast to every
connected client), and stop the timer. -/
def handle_azure_silence_timeout (st : AzureState) : AzureState × List Emit :=
  let st := { st with connection_open := false, ws := none }
  let st :=
    if st.session_start_time then
      { st with session_start_time := false, transcription_count := 0,
                current_transcript := "" }
    else st
  let emits : List Emit := if st.socketio_set then [⟨"silence_timeout", none⟩] else []
  (stop_azure_silence_timer st, emits)

/-- The `on_open` callback (lines 203-280), invoked with the WebSocket `ws`
that opened.  When `azure_openai_ws` is `None` or is a different object
than `ws` the connection was superseded: the callback closes `ws` and
returns without touching any global (race-condition protection).  Otherwise
it records the start time, clears the audio buffer, arms the silence timer,
sends the session configuration and marks the connection open. -/
def azure_on_open (st : AzureState) (ws : AzureConn) : AzureState :=
  if st.ws = none ∨ st.ws ≠ some ws then
    st
  else
    let st := { st with session_start_time := true, audio_buffer := [] }
    let st := reset_azure_silence_timer st
    { st with connection_open := true }

/-- The `on_message` callback (lines 282-473) for a
`conversation.item.input_audio_transcription.delta` event, invoked with the
WebSocket `ws` that delivered it.  The source performs **no** check that
`ws` is still the current `azure_openai_ws`: a non-empty delta is appended
to `azure_current_transcript`, the silence timer is rearmed, and a
room-less `transcription_update` is emitted, whichever connection delivered
the message. -/
def azure_on_message_delta (st : AzureState) (_ws : AzureConn) (piece : String) :
    AzureState × List Emit :=
  if piece ≠ "" ∧ st.socketio_set then
    let st := { st with current_transcript := st.current_transcript ++ piece,
                        transcription_count := st.transcription_count + 1 }
    let st := reset_azure_silence_timer st
    (st, [⟨"transcription_update", none⟩])
  else (st, [])

/-- `send_audio_to_azure_openai` (lines 634-719): with no socket, fail;
with the connection not yet open, append to the global buffer under a
drop-oldest cap and report `False`; otherwise append then flush all
complete `AZURE_AUDIO_CHUNK_SIZE` frames through the **global** socket.
Returns the flag, the new state, the connection the frames were sent on,
and the frames. -/
def send_audio_to_azure_openai (st : AzureState) (data : Bytes) :
    Bool × AzureState × Option AzureConn × List Bytes :=
  match st.ws with
  | none => (false, st, none, [])
  | some conn =>
    if ¬ st.connection_open then
      let buf := st.audio_buffer ++ data
      let buf :=
        if buf.length > AZURE_AUDIO_CHUNK_SIZE * 10 then
          buf.drop (buf.length - AZURE_AUDIO_CHUNK_SIZE * 5)
        else buf
      (false, { st with audio_buffer := buf }, none, [])
    else
      let flushed := flushFrames AZURE_AUDIO_CHUNK_SIZE (st.audio_buffer ++ data)
      (true, { st with audio_buffer := flushed.2 }, some conn, flushed.1)

/-- `close_azure_openai_connection` (lines 722-753): mark the connection
closed, stop the global silence timer, clear the global audio buffer, drop
and close the global socket, and reset the transcript accumulator. -/
def close_azure_openai_connection (st : AzureState) : AzureState :=
  let st := { st with connection_open := false }
  let st := stop_azure_silence_timer st
  let st := { st with audio_buffer := [], ws := none }
  { st with current_transcript := "" }

/-- `initialize_azure_openai_connection` (lines 132-568), reduced to its
credential gate: the result flag and the number of `WebSocketApp`
connection attempts made.  With `AZURE_OPENAI_API_KEY` or
`AZURE_OPENAI_ENDPOINT` unset it returns `False` at once, before the
existing connection is touched, without attempting any connection and
without any retry; otherwise it starts exactly one connection attempt and
returns `True` (also when the bounded 5s readiness wait elapses). -/
def initialize_azure_openai_connection (apiKey : Option String)
    (endpoint : Option String) : Bool × Nat :=
  match apiKey with
  | none => (false, 0)
  | some _ =>
    match endpoint with
    | none => (false, 0)
    | some _ => (true, 1)

/-! ## The transport layer's view (voicesearch_app.py)

`handle_audio_stream` routes a client's audio chunk to the provider send
function for that client's session; on the Azure path the handler-level
send takes no session identity at all, so the feeding client is a ghost
parameter. -/

/-- The Azure branch of `handle_audio_stream` (voicesearch_app.py lines
500-508), at handler level: the audio of client `feeder` goes to the one
global Azure connection.  The `feeder` argument is deliberately unused —
`send_audio_to_azure_openai` has no session parameter. -/
def app_feed_audio_azure (_feeder : String) (st : AzureState) (data : Bytes) :
    Bool × AzureState × Option AzureConn × List Bytes :=
  send_audio_to_azure_openai st data

/-- The Azure branch of the stop action (voicesearch_app.py lines 608-611
and 657-663), at handler level: client `stopper`'s stop closes the one
global Azure connection and cancels the one global silence timer.  The
`stopper` argument is deliberately unused. -/
def app_stop_azure (_stopper : String) (st : AzureState) : AzureState :=
  close_azure_openai_connection st

/-! ## Python call arity

voicesearch_app.py defines stub Azure functions (lines 18-28) and replaces
them with the real handler's functions when `azure_openai_handler` imports
(lines 30-40).  Python raises `TypeError` when a call passes more
positional arguments than the callee's parameter count (none of these
functions takes `*args`); a call succeeds exactly when the count of passed
positional arguments lies between the number of parameters without
defaults and the total number of parameters. -/

/-- A Python function signature: parameters without defaults, and all
positional parameters (no `*args` anywhere in these modules). -/
structure PySig where
  required : Nat
  total : Nat
  deriving DecidableEq, Repr

/-- A positional call with `n` arguments binds without `TypeError` iff
`required ≤ n ≤ total`. -/
def PySig.acceptsPositional (s : PySig) (n : Nat) : Bool :=
  s.required ≤ n && n ≤ s.total

/-- `initialize_azure_openai_connection(socketio_instance, language_name="Auto")`
(azure_openai_handler.py line 132). -/
def sig_initialize_azure : PySig := ⟨1, 2⟩

/-- `send_audio_to_azure_openai(audio_data)` (azure_openai_handler.py line 634). -/
def sig_send_azure : PySig := ⟨1, 1⟩

/-- `close_azure_openai_connection()` (azure_openai_handler.py line 722). -/
def sig_close_azure : PySig := ⟨0, 0⟩

/-- Stub `initialize_azure_openai_connection(socketio_instance,
language_name="English", session_id=None)` (voicesearch_app.py line 18). -/
def sig_initialize_azure_stub : PySig := ⟨1, 3⟩

/-- Stub `send_audio_to_azure_openai(audio_data, session_id=None)`
(voicesearch_app.py line 22). -/
def sig_send_azure_stub : PySig := ⟨1, 2⟩

/-- Stub `close_azure_openai_connection(session_id=None)`
(voicesearch_app.py line 26). -/
def sig_close_azure_stub : PySig := ⟨0, 1⟩

/-- `initialize_azure_openai_connection(socketio, language_name,
session.session_id)` — voicesearch_app.py line 558 passes 3 positional
arguments. -/
def app_call_arity_initialize_azure : Nat := 3

/-- `send_audio_to_azure_openai(audio_bytes, session.session_id)` —
voicesearch_app.py line 503 passes 2 positional arguments. -/
def app_call_arity_send_azure : Nat := 2

/-- `close_azure_openai_connection(session.session_id)` /
`close_azure_openai_connection(session_id)` — voicesearch_app.py lines 610
and 660 pass 1 positional argument. -/
def app_call_arity_close_azure : Nat := 1

/-! # Theorems

Helper lemmas about framing, Python string stripping and the registry come
first; the claim theorems follow. -/

/-! ## Framing lemmas -/

theorem flushFramesAux_conservation (frameSize fuel : Nat) (buf : Bytes) :
    totalBytes (flushFramesAux frameSize fuel buf).1
      + (flushFramesAux frameSize fuel buf).2.length = buf.length := by
  induction fuel generalizing buf with
  | zero => simp [flushFramesAux, totalBytes]
  | succ fuel ih =>
    by_cases h : 0 < frameSize ∧ frameSize ≤ buf.length
    · simp only [flushFramesAux, if_pos h, totalBytes, List.map_cons, List.sum_cons]
      have hrec := ih (buf.drop frameSize)
      simp only [totalBytes] at hrec
      rw [List.length_take_of_le h.2]
      rw [List.length_drop] at hrec
      omega
    · simp [flushFramesAux, if_neg h, totalBytes]

theorem flushFramesAux_remainder_lt (frameSize fuel : Nat) (buf : Bytes)
    (hpos : 0 < frameSize) (hfuel : buf.length ≤ fuel) :
    (flushFramesAux frameSize fuel buf).2.length < frameSize := by
  induction fuel generalizing buf with
  | zero =>
    simp only [flushFramesAux]
    omega
  | succ fuel ih =>
    by_cases h : 0 < frameSize ∧ frameSize ≤ buf.length
    · simp only [flushFramesAux, if_pos h]
      exact ih (buf.drop frameSize) (by simp only [List.length_drop]; omega)
    · simp only [flushFramesAux, if_neg h]
      simp only [not_and, not_le] at h
      exact h hpos

theorem flushFramesAux_count (frameSize fuel : Nat) (buf : Bytes)
    (hpos : 0 < frameSize) (hfuel : buf.length ≤ fuel) :
    (flushFramesAux frameSize fuel buf).1.length = buf.length / frameSize := by
  induction fuel generalizing buf with
  | zero =>
    simp only [flushFramesAux, List.length_nil]
    have : buf.length = 0 := by omega
    rw [this]
    simp
  | succ fuel ih =>
    by_cases h : 0 < frameSize ∧ frameSize ≤ buf.length
    · simp only [flushFramesAux, if_pos h, List.length_cons]
      rw [ih (buf.drop frameSize) (by simp only [List.length_drop]; omega)]
      rw [List.length_drop, Nat.div_eq_sub_div h.1 h.2]
    · simp only [flushFramesAux, if_neg h, List.length_nil]
      have hlt : buf.length < frameSize := by
        simp only [not_and, not_le] at h
        exact h hpos
      simp [Nat.div_eq_of_lt hlt]

theorem flushFramesAux_frame_sizes (frameSize fuel : Nat) (buf : Bytes) :
    ∀ f ∈ (flushFramesAux frameSize fuel buf).1, f.length = frameSize := by
  induction fuel generalizing buf with
  | zero => simp [flushFramesAux]
  | succ fuel ih =>
    by_cases h : 0 < frameSize ∧ frameSize ≤ buf.length
    · simp only [flushFramesAux, if_pos h, List.mem_cons]
      rintro f (rfl | hf)
      · exact List.length_take_of_le h.2
      · exact ih (buf.drop frameSize) f hf
    · simp [flushFramesAux, if_neg h]

theorem flushFrames_conservation (frameSize : Nat) (buf : Bytes) :
    totalBytes (flushFrames frameSize buf).1 + (flushFrames frameSize buf).2.length
      = buf.length :=
  flushFramesAux_conservation frameSize buf.length buf

theorem flushFrames_remainder_lt (frameSize : Nat) (buf : Bytes)
    (hpos : 0 < frameSize) : (flushFrames frameSize buf).2.length < frameSize :=
  flushFramesAux_remainder_lt frameSize buf.length buf hpos le_rfl

theorem flushFrames_count (frameSize : Nat) (buf : Bytes) (hpos : 0 < frameSize) :
    (flushFrames frameSize buf).1.length = buf.length / frameSize :=
  flushFramesAux_count frameSize buf.length buf hpos le_rfl

theorem flushFrames_frame_sizes (frameSize : Nat) (buf : Bytes) :
    ∀ f ∈ (flushFrames frameSize buf).1, f.length = frameSize :=
  flushFramesAux_frame_sizes frameSize buf.length buf

theorem flushFrames_remainder_len (frameSize : Nat) (buf : Bytes) (hpos : 0 < frameSize) :
    (flushFrames frameSize buf).2.length = buf.length % frameSize := by
  have h1 := flushFrames_conservation frameSize buf
  have h2 := flushFrames_count frameSize buf hpos
  have h3 : totalBytes (flushFrames frameSize buf).1
      = frameSize * (flushFrames frameSize buf).1.length := by
    have hsz := flushFrames_frame_sizes frameSize buf
    generalize (flushFrames frameSize buf).1 = fs at hsz ⊢
    induction fs with
    | nil => simp [totalBytes]
    | cons f fs ih =>
      simp only [totalBytes, List.map_cons, List.sum_cons, List.length_cons] at *
      rw [hsz f (List.mem_cons_self f fs), ih (fun g hg => hsz g (List.mem_cons_of_mem f hg))]
      ring
  rw [h2] at h3
  have := Nat.div_add_mod buf.length frameSize
  omega

theorem feedSeq_conservation (frameSize : Nat) (buf : Bytes) (chunks : List Bytes) :
    totalBytes (feedSeq frameSize buf chunks).1 + (feedSeq frameSize buf chunks).2.length
      = buf.length + totalBytes chunks := by
  induction chunks generalizing buf with
  | nil => simp [feedSeq, totalBytes]
  | cons d ds ih =>
    simp only [feedSeq, totalBytes, List.map_append, List.sum_append, List.map_cons,
      List.sum_cons]
    have h1 := flushFrames_conservation frameSize (buf ++ d)
    have h2 := ih (feedReady frameSize buf d).2
    simp only [totalBytes] at h1 h2
    simp only [feedReady] at *
    rw [List.length_append] at h1
    omega

/-! ## Python string-stripping lemmas -/

theorem dropWhile_dropWhile (p : Char → Bool) (l : List Char) :
    (l.dropWhile p).dropWhile p = l.dropWhile p := by
  induction l with
  | nil => rfl
  | cons h t ih =>
    rw [List.dropWhile_cons]
    by_cases hp : p h = true
    · rw [if_pos hp]
      exact ih
    · rw [if_neg hp, List.dropWhile_cons, if_neg hp]

theorem length_dropWhile_le (p : Char → Bool) (l : List Char) :
    (l.dropWhile p).length ≤ l.length := by
  conv_rhs => rw [← List.takeWhile_append_dropWhile p l]
  rw [List.length_append]
  omega

theorem dropWhile_eq_self_of_length (p : Char → Bool) (l : List Char)
    (h : (l.dropWhile p).length = l.length) : l.dropWhile p = l := by
  have happ := List.takeWhile_append_dropWhile p l
  have hlen : (l.takeWhile p).length + (l.dropWhile p).length = l.length := by
    rw [← List.length_append, happ]
  have hnil : l.takeWhile p = [] := List.eq_nil_of_length_eq_zero (by omega)
  conv_rhs => rw [← happ]
  rw [hnil, List.nil_append]

theorem head_false_of_dropWhile_cons_eq (p : Char → Bool) (h : Char) (t : List Char)
    (heq : List.dropWhile p (h :: t) = h :: t) : p h = false := by
  by_cases hp : p h = true
  · rw [List.dropWhile_cons, if_pos hp] at heq
    have hle := length_dropWhile_le p t
    have : (h :: t).length = t.length + 1 := rfl
    rw [heq] at hle
    simp at hle
  · simpa using hp

theorem pyStripChars_fix_of (l : List Char)
    (h1 : l.dropWhile Char.isWhitespace = l)
    (h2 : l.reverse.dropWhile Char.isWhitespace = l.reverse) :
    pyStripChars l = l := by
  unfold pyStripChars
  rw [h1, h2, List.reverse_reverse]

theorem pyStripChars_reverse_fix (l : List Char) :
    (pyStripChars l).reverse.dropWhile Char.isWhitespace = (pyStripChars l).reverse := by
  unfold pyStripChars
  rw [List.reverse_reverse]
  exact dropWhile_dropWhile _ _

theorem pyStripChars_left_fix (l : List Char) :
    (pyStripChars l).dropWhile Char.isWhitespace = pyStripChars l := by
  cases hv : pyStripChars l with
  | nil => rfl
  | cons hd tl =>
    have hufix : (l.dropWhile Char.isWhitespace).dropWhile Char.isWhitespace
        = l.dropWhile Char.isWhitespace := dropWhile_dropWhile _ l
    have hvrev : (pyStripChars l).reverse
        = (l.dropWhile Char.isWhitespace).reverse.dropWhile Char.isWhitespace := by
      unfold pyStripChars
      rw [List.reverse_reverse]
    obtain ⟨pre, hpre⟩ : ∃ pre, pre ++ (pyStripChars l).reverse
        = (l.dropWhile Char.isWhitespace).reverse := by
      refine ⟨(l.dropWhile Char.isWhitespace).reverse.takeWhile Char.isWhitespace, ?_⟩
      rw [hvrev]
      exact List.takeWhile_append_dropWhile _ _
    have hu_eq : l.dropWhile Char.isWhitespace = pyStripChars l ++ pre.reverse := by
      have hr := congrArg List.reverse hpre
      exact (by simpa [List.reverse_append] using hr : _ = _).symm
    rw [hv] at hu_eq
    rw [hu_eq, List.cons_append] at hufix
    have hph := head_false_of_dropWhile_cons_eq _ _ _ hufix
    rw [List.dropWhile_cons, if_neg (by simp [hph])]

theorem pyStripChars_idem (l : List Char) :
    pyStripChars (pyStripChars l) = pyStripChars l :=
  pyStripChars_fix_of _ (pyStripChars_left_fix l) (pyStripChars_reverse_fix l)

theorem dropWhile_eq_self_of_pyStripChars_fix (l : List Char)
    (h : pyStripChars l = l) : l.dropWhile Char.isWhitespace = l := by
  have hlen := congrArg List.length h
  have h1 : (pyStripChars l).length
      ≤ (l.dropWhile Char.isWhitespace).length := by
    unfold pyStripChars
    rw [List.length_reverse]
    have := length_dropWhile_le Char.isWhitespace (l.dropWhile Char.isWhitespace).reverse
    rw [List.length_reverse] at this
    exact this
  have h2 := length_dropWhile_le Char.isWhitespace l
  exact dropWhile_eq_self_of_length _ l (by omega)

theorem reverse_dropWhile_eq_self_of_pyStripChars_fix (l : List Char)
    (h : pyStripChars l = l) :
    l.reverse.dropWhile Char.isWhitespace = l.reverse := by
  have hd := dropWhile_eq_self_of_pyStripChars_fix l h
  unfold pyStripChars at h
  rw [hd] at h
  have hr := congrArg List.reverse h
  rw [List.reverse_reverse] at hr
  exact hr

theorem pyStripChars_append (a b : List Char)
    (ha : pyStripChars a = a) (ha0 : a ≠ [])
    (hb : pyStripChars b = b) (hb0 : b ≠ []) :
    pyStripChars (a ++ ' ' :: b) = a ++ ' ' :: b := by
  apply pyStripChars_fix_of
  · obtain ⟨hd, tl, rfl⟩ : ∃ hd tl, a = hd :: tl := by
      cases a with
      | nil => exact absurd rfl ha0
      | cons hd tl => exact ⟨hd, tl, rfl⟩
    have hfa := dropWhile_eq_self_of_pyStripChars_fix _ ha
    have hph := head_false_of_dropWhile_cons_eq _ _ _ hfa
    rw [List.cons_append, List.dropWhile_cons, if_neg (by simp [hph])]
  · have hfb := reverse_dropWhile_eq_self_of_pyStripChars_fix _ hb
    obtain ⟨hd, tl, hbr⟩ : ∃ hd tl, b.reverse = hd :: tl := by
      cases hbr : b.reverse with
      | nil =>
        exact absurd (by simpa using congrArg List.reverse hbr) hb0
      | cons hd tl => exact ⟨hd, tl, rfl⟩
    rw [hbr] at hfb
    have hph := head_false_of_dropWhile_cons_eq _ _ _ hfb
    have hrw : (a ++ ' ' :: b).reverse = hd :: (tl ++ ' ' :: a.reverse) := by
      rw [List.reverse_append, List.reverse_cons, hbr]
      simp
    rw [hrw, List.dropWhile_cons, if_neg (by simp [hph])]

theorem pyStripChars_eq_nil_iff (l : List Char) :
    pyStripChars l = [] ↔ ∀ c ∈ l, Char.isWhitespace c := by
  unfold pyStripChars
  rw [List.reverse_eq_nil_iff, List.dropWhile_eq_nil_iff]
  constructor
  · intro h c hc
    have hsplit : c ∈ l.takeWhile Char.isWhitespace ∨ c ∈ l.dropWhile Char.isWhitespace := by
      rw [← List.mem_append, List.takeWhile_append_dropWhile]
      exact hc
    rcases hsplit with hm | hm
    · exact List.mem_takeWhile_imp hm
    · exact h c (List.mem_reverse.mpr hm)
  · intro h c hc
    have hm : c ∈ l.dropWhile Char.isWhitespace := List.mem_reverse.mp hc
    have : c ∈ l := by
      rw [← List.takeWhile_append_dropWhile Char.isWhitespace l]
      exact List.mem_append.mpr (Or.inr hm)
    exact h c this

theorem string_ne_empty_iff (s : String) : s ≠ "" ↔ s.data ≠ [] := by
  constructor
  · intro h hd
    exact h (String.ext hd)
  · intro h hd
    rw [hd] at h
    exact h rfl

theorem pyStrip_idem (s : String) : pyStrip (pyStrip s) = pyStrip s := by
  unfold pyStrip
  exact String.ext (pyStripChars_idem s.data)

theorem pyStrip_append_sep (a b : String)
    (ha : pyStrip a = a) (ha0 : a ≠ "")
    (hb : pyStrip b = b) (hb0 : b ≠ "") :
    pyStrip (a ++ " " ++ b) = a ++ " " ++ b := by
  unfold pyStrip at *
  apply String.ext
  have hdata : (a ++ " " ++ b).data = a.data ++ ' ' :: b.data := by
    rw [String.data_append, String.data_append,
      show (" " : String).data = [' '] from rfl, List.append_assoc]
    rfl
  rw [hdata]
  exact pyStripChars_append a.data b.data
    (congrArg String.data ha) ((string_ne_empty_iff a).mp ha0)
    (congrArg String.data hb) ((string_ne_empty_iff b).mp hb0)

theorem pyStrip_eq_empty_iff (s : String) :
    pyStrip s = "" ↔ ∀ c ∈ s.data, Char.isWhitespace c := by
  constructor
  · intro h
    exact (pyStripChars_eq_nil_iff s.data).mp (congrArg String.data h)
  · intro h
    exact String.ext ((pyStripChars_eq_nil_iff s.data).mpr h)

theorem pyStrip_append_sep_ne_empty (a b : String) (ha : pyStrip a ≠ "") :
    pyStrip (a ++ " " ++ b) ≠ "" := by
  intro h
  apply ha
  rw [pyStrip_eq_empty_iff] at h ⊢
  intro c hc
  apply h c
  rw [String.data_append, String.data_append]
  exact List.mem_append.mpr (Or.inl (List.mem_append.mpr (Or.inl hc)))

/-! ## Registry lemmas -/

theorem lookupSession_updateSession_ne (reg : Registry) (a b : String)
    (s : ElevenLabsSession) (h : b ≠ a) :
    lookupSession (updateSession reg a s) b = lookupSession reg b := by
  induction reg with
  | nil => rfl
  | cons p rest ih =>
    obtain ⟨k, sess⟩ := p
    by_cases hk : k = a
    · subst hk
      rw [updateSession, if_pos rfl, lookupSession, lookupSession,
        if_neg (fun hkb => h hkb.symm), if_neg (fun hkb => h hkb.symm)]
      exact ih
    · rw [updateSession, if_neg hk, lookupSession, lookupSession]
      by_cases hkb : k = b
      · rw [if_pos hkb, if_pos hkb]
      · rw [if_neg hkb, if_neg hkb]
        exact ih

theorem lookupSession_updateSession_self (reg : Registry) (a : String)
    (s₀ s : ElevenLabsSession) (h : lookupSession reg a = some s₀) :
    lookupSession (updateSession reg a s) a = some s := by
  induction reg with
  | nil => simp [lookupSession] at h
  | cons p rest ih =>
    obtain ⟨k, sess⟩ := p
    by_cases hk : k = a
    · rw [updateSession, if_pos hk, lookupSession, if_pos hk]
    · rw [lookupSession, if_neg hk] at h
      rw [updateSession, if_neg hk, lookupSession, if_neg hk]
      exact ih h

theorem updateSession_updateSession_self (reg : Registry) (a : String)
    (s : ElevenLabsSession) :
    updateSession (updateSession reg a s) a s = updateSession reg a s := by
  induction reg with
  | nil => rfl
  | cons p rest ih =>
    obtain ⟨k, sess⟩ := p
    by_cases hk : k = a
    · rw [updateSession, if_pos hk, updateSession, if_pos hk, ih]
    · rw [updateSession, if_neg hk, updateSession, if_neg hk, ih]

theorem lookupSession_eraseSession_self (reg : Registry) (a : String) :
    lookupSession (eraseSession reg a) a = none := by
  induction reg with
  | nil => rfl
  | cons p rest ih =>
    obtain ⟨k, sess⟩ := p
    by_cases hk : k = a
    · rw [eraseSession, if_pos hk]
      exact ih
    · rw [eraseSession, if_neg hk, lookupSession, if_neg hk]
      exact ih

theorem lookupSession_eraseSession_ne (reg : Registry) (a b : String) (h : b ≠ a) :
    lookupSession (eraseSession reg a) b = lookupSession reg b := by
  induction reg with
  | nil => rfl
  | cons p rest ih =>
    obtain ⟨k, sess⟩ := p
    by_cases hk : k = a
    · subst hk
      rw [eraseSession, if_pos rfl, lookupSession, if_neg (fun hkb => h hkb.symm)]
      exact ih
    · rw [eraseSession, if_neg hk, lookupSession, lookupSession]
      by_cases hkb : k = b
      · rw [if_pos hkb, if_pos hkb]
      · rw [if_neg hkb, if_neg hkb]
        exact ih

theorem eraseSession_eraseSession (reg : Registry) (a : String) :
    eraseSession (eraseSession reg a) a = eraseSession reg a := by
  induction reg with
  | nil => rfl
  | cons p rest ih =>
    obtain ⟨k, sess⟩ := p
    by_cases hk : k = a
    · rw [eraseSession, if_pos hk]
      exact ih
    · rw [eraseSession, if_neg hk, eraseSession, if_neg hk, ih]

/-! ## Transcript-assembly invariants -/

theorem specDisplay_empty_seg (a : String) : specDisplay a "" = a := by
  rw [specDisplay, if_neg (fun h => h.2 rfl), if_neg (fun h => h rfl)]

theorem specDisplay_seg_ne (a seg : String) (h : seg ≠ "") :
    specDisplay a seg = if a ≠ "" then a ++ " " ++ seg else seg := by
  by_cases ha : a = ""
  · rw [specDisplay, if_neg (fun hh => hh.1 ha), if_pos h, if_neg (fun hh => hh ha)]
  · rw [specDisplay, if_pos ⟨ha, h⟩, if_pos ha]

theorem display_invariant_step (s : ElevenLabsSession) (seg : String) (m : ElMessage)
    (hgood : goodText m)
    (hcur : s.current_transcript = specDisplay s.accumulated_transcript seg)
    (hacc : pyStrip s.accumulated_transcript = s.accumulated_transcript) :
    (handle_elevenlabs_message s m).1.current_transcript
      = specDisplay (handle_elevenlabs_message s m).1.accumulated_transcript
          (segStep seg m)
    ∧ pyStrip (handle_elevenlabs_message s m).1.accumulated_transcript
      = (handle_elevenlabs_message s m).1.accumulated_transcript := by
  cases m with
  | session_started => exact ⟨hcur, hacc⟩
  | commit_throttled => exact ⟨hcur, hacc⟩
  | error_message t => exact ⟨hcur, hacc⟩
  | other => exact ⟨hcur, hacc⟩
  | partial_transcript t =>
    by_cases ht : t = ""
    · subst ht
      simp only [handle_elevenlabs_message, if_neg (by decide : ¬("" ≠ "")), segStep]
      exact ⟨hcur, hacc⟩
    · have hts : pyStrip t ≠ "" := by
        rcases hgood with h | h
        · exact absurd h ht
        · exact h
      simp only [handle_elevenlabs_message, if_pos ht, segStep,
        reset_elevenlabs_silence_timer]
      refine ⟨?_, hacc⟩
      rw [specDisplay_seg_ne _ _ hts]
      by_cases hA : s.accumulated_transcript = ""
      · rw [if_neg (fun hand => hand.1 hA), if_neg (fun hh => hh hA)]
      · rw [if_pos ⟨hA, by rw [hacc]; exact hA⟩, hacc, if_pos hA]
  | committed_transcript t =>
    by_cases ht : t = ""
    · subst ht
      simp only [handle_elevenlabs_message, if_neg (by decide : ¬("" ≠ "")), segStep]
      exact ⟨hcur, hacc⟩
    · have hts : pyStrip t ≠ "" := by
        rcases hgood with h | h
        · exact absurd h ht
        · exact h
      simp only [handle_elevenlabs_message, if_pos ht, segStep,
        reset_elevenlabs_silence_timer]
      refine ⟨specDisplay_empty_seg _ |>.symm, ?_⟩
      by_cases hA : s.accumulated_transcript = ""
      · rw [if_neg (fun hand => hand.1 hA)]
        exact pyStrip_idem t
      · rw [if_pos ⟨hA, by rw [hacc]; exact hA⟩]
        exact pyStrip_append_sep _ _ (pyStrip_idem _) (by rw [hacc]; exact hA)
          (pyStrip_idem _) hts

theorem display_invariant_trace (ms : List ElMessage) :
    ∀ (s : ElevenLabsSession) (seg : String),
      (∀ m ∈ ms, goodText m) →
      s.current_transcript = specDisplay s.accumulated_transcript seg →
      pyStrip s.accumulated_transcript = s.accumulated_transcript →
      (runMessages s ms).current_transcript
        = specDisplay (runMessages s ms).accumulated_transcript (ms.foldl segStep seg)
      ∧ pyStrip (runMessages s ms).accumulated_transcript
        = (runMessages s ms).accumulated_transcript := by
  induction ms with
  | nil =>
    intro s seg _ hcur hacc
    exact ⟨hcur, hacc⟩
  | cons m ms ih =>
    intro s seg hgood hcur hacc
    have hstep := display_invariant_step s seg m (hgood m (List.mem_cons_self m ms))
      hcur hacc
    exact ih (handle_elevenlabs_message s m).1 (segStep seg m)
      (fun x hx => hgood x (List.mem_cons_of_mem m hx)) hstep.1 hstep.2

theorem acc_invariant_step (s : ElevenLabsSession) (m : ElMessage)
    (h : s.accumulated_transcript = "" ∨ pyStrip s.accumulated_transcript ≠ "") :
    (handle_elevenlabs_message s m).1.accumulated_transcript = ""
    ∨ pyStrip (handle_elevenlabs_message s m).1.accumulated_transcript ≠ "" := by
  cases m with
  | session_started => exact h
  | commit_throttled => exact h
  | error_message t => exact h
  | other => exact h
  | partial_transcript t =>
    by_cases ht : t = ""
    · subst ht
      simp only [handle_elevenlabs_message, if_neg (by decide : ¬("" ≠ ""))]
      exact h
    · simp only [handle_elevenlabs_message, if_pos ht, reset_elevenlabs_silence_timer]
      exact h
  | committed_transcript t =>
    by_cases ht : t = ""
    · subst ht
      simp only [handle_elevenlabs_message, if_neg (by decide : ¬("" ≠ ""))]
      exact h
    · simp only [handle_elevenlabs_message, if_pos ht, reset_elevenlabs_silence_timer]
      by_cases hA : s.accumulated_transcript ≠ "" ∧ pyStrip s.accumulated_transcript ≠ ""
      · rw [if_pos hA]
        exact Or.inr (pyStrip_append_sep_ne_empty _ _ (by rw [pyStrip_idem]; exact hA.2))
      · rw [if_neg hA]
        by_cases hts : pyStrip t = ""
        · exact Or.inl hts
        · exact Or.inr (by rw [pyStrip_idem]; exact hts)

theorem acc_invariant_trace (ms : List ElMessage) :
    ∀ (s : ElevenLabsSession),
      (s.accumulated_transcript = "" ∨ pyStrip s.accumulated_transcript ≠ "") →
      (runMessages s ms).accumulated_transcript = ""
      ∨ pyStrip (runMessages s ms).accumulated_transcript ≠ "" := by
  induction ms with
  | nil =>
    intro s h
    exact h
  | cons m ms ih =>
    intro s h
    exact ih (handle_elevenlabs_message s m).1 (acc_invariant_step s m h)

theorem feedSeq_remainder_lt (frameSize : Nat) (chunks : List Bytes) :
    ∀ (buf : Bytes), 0 < frameSize → buf.length < frameSize →
      (feedSeq frameSize buf chunks).2.length < frameSize := by
  induction chunks with
  | nil =>
    intro buf _ hbuf
    exact hbuf
  | cons d ds ih =>
    intro buf hpos _
    exact ih (feedReady frameSize buf d).2 hpos
      (flushFrames_remainder_lt frameSize (buf ++ d) hpos)

/-! ## Claim theorems -/

/-- C5: for every sequence of byte chunks fed to a ready session's
audio-send operation starting from an empty buffer, the total bytes
transmitted as frames plus the bytes remaining in the audio buffer equals
the total bytes pushed, and the remaining buffer is shorter than one frame
after the flush; in particular feeding 5000 bytes with the Azure frame size
2048 transmits exactly two frames (4096 bytes) and leaves 904 bytes
buffered. -/
theorem claim_C5_framing_conservation (frameSize : Nat) (chunks : List Bytes)
    (hpos : 0 < frameSize) :
    (totalBytes (feedSeq frameSize [] chunks).1
        + (feedSeq frameSize [] chunks).2.length = totalBytes chunks)
    ∧ (feedSeq frameSize [] chunks).2.length < frameSize
    ∧ ((feedSeq AZURE_AUDIO_CHUNK_SIZE [] [List.replicate 5000 0]).1.length = 2
       ∧ totalBytes (feedSeq AZURE_AUDIO_CHUNK_SIZE [] [List.replicate 5000 0]).1 = 4096
       ∧ (feedSeq AZURE_AUDIO_CHUNK_SIZE [] [List.replicate 5000 0]).2.length = 904) := by
  have hchunk : AZURE_AUDIO_CHUNK_SIZE = 2048 := rfl
  have hpos' : 0 < AZURE_AUDIO_CHUNK_SIZE := by rw [hchunk]; omega
  have hlen : ([] ++ List.replicate 5000 (0 : Nat)).length = 5000 := by
    rw [List.nil_append, List.length_replicate]
  have hfeed : feedSeq AZURE_AUDIO_CHUNK_SIZE [] [List.replicate 5000 0]
      = ((flushFrames AZURE_AUDIO_CHUNK_SIZE ([] ++ List.replicate 5000 0)).1 ++ [],
         (flushFrames AZURE_AUDIO_CHUNK_SIZE ([] ++ List.replicate 5000 0)).2) := by
    simp only [feedSeq, feedReady]
  have hcount : (feedSeq AZURE_AUDIO_CHUNK_SIZE [] [List.replicate 5000 0]).1.length = 2 := by
    rw [hfeed]
    simp only [List.append_nil]
    rw [flushFrames_count _ _ hpos', hlen, hchunk]
  have hrem : (feedSeq AZURE_AUDIO_CHUNK_SIZE [] [List.replicate 5000 0]).2.length = 904 := by
    rw [hfeed]
    simp only []
    rw [flushFrames_remainder_len _ _ hpos', hlen, hchunk]
  refine ⟨?_, ?_, hcount, ?_, hrem⟩
  · have := feedSeq_conservation frameSize [] chunks
    simpa using this
  · exact feedSeq_remainder_lt frameSize chunks [] hpos (by simpa using hpos)
  · have hcons := feedSeq_conservation AZURE_AUDIO_CHUNK_SIZE [] [List.replicate 5000 0]
    have htot : totalBytes [List.replicate 5000 (0 : Nat)] = 5000 := by
      simp only [totalBytes, List.map_cons, List.map_nil, List.sum_cons, List.sum_nil,
        List.length_replicate, Nat.add_zero]
    rw [htot, hrem] at hcons
    simp only [List.length_nil, Nat.zero_add] at hcons
    omega

/-- C5 witness: the conservation theorem applied at frame size 2048 and a
concrete chunk sequence. -/
theorem claim_C5_framing_conservation_witness :
    0 < 2048
    ∧ ((totalBytes (feedSeq 2048 [] [[1, 2, 3]]).1
          + (feedSeq 2048 [] [[1, 2, 3]]).2.length = totalBytes [[1, 2, 3]])
       ∧ (feedSeq 2048 [] [[1, 2, 3]]).2.length < 2048
       ∧ ((feedSeq AZURE_AUDIO_CHUNK_SIZE [] [List.replicate 5000 0]).1.length = 2
          ∧ totalBytes (feedSeq AZURE_AUDIO_CHUNK_SIZE [] [List.replicate 5000 0]).1 = 4096
          ∧ (feedSeq AZURE_AUDIO_CHUNK_SIZE [] [List.replicate 5000 0]).2.length = 904)) :=
  ⟨by decide, claim_C5_framing_conservation 2048 [[1, 2, 3]] (by decide)⟩

/-- C3: the transport layer calls the Azure provider operations with 3, 2
and 1 positional arguments, but the real handler defines them with 2, 1
and 0 parameters, so every such call raises `TypeError` whenever the real
handler module imported; only the fallback stub signatures (3, 2, 1
parameters) accept the call sites' argument counts. -/
theorem claim_C3_arity_mismatch :
    (sig_initialize_azure.acceptsPositional app_call_arity_initialize_azure = false
     ∧ sig_send_azure.acceptsPositional app_call_arity_send_azure = false
     ∧ sig_close_azure.acceptsPositional app_call_arity_close_azure = false)
    ∧ (sig_initialize_azure_stub.acceptsPositional app_call_arity_initialize_azure = true
       ∧ sig_send_azure_stub.acceptsPositional app_call_arity_send_azure = true
       ∧ sig_close_azure_stub.acceptsPositional app_call_arity_close_azure = true) := by
  decide

/-- C9: with a required credential absent — `AZURE_OPENAI_API_KEY`, or
`AZURE_OPENAI_ENDPOINT` for Azure, or `ELEVENLABS_API_KEY` for ElevenLabs —
the initializer returns failure immediately, makes zero provider connection
attempts, and performs no retry. -/
theorem claim_C9_config_error (endpoint : Option String) (sid : String) :
    initialize_azure_openai_connection none endpoint = (false, 0)
    ∧ (∀ k : String, initialize_azure_openai_connection (some k) none = (false, 0))
    ∧ initialize_elevenlabs_connection true (some sid) none = (false, 0) :=
  ⟨rfl, fun _ => rfl, rfl⟩

/-- C1 counterexample: in the Azure handler all state is module-global.
With the global connection the one opened for client "B" and the global
silence timer armed, feeding client "A"'s audio transmits a frame on "B"'s
connection, and client "A"'s stop action cancels the armed timer — the
session-isolation claim is false on the Azure handler. -/
theorem claim_C1_counterexample :
    let st : AzureState :=
      { ws := some ⟨1, "B"⟩, connection_open := true, audio_buffer := [],
        silence_timer := true, session_start_time := true, transcription_count := 0,
        current_transcript := "", socketio_set := true }
    ("A" : String) ≠ "B"
    ∧ (app_feed_audio_azure "A" st (List.replicate 2048 0)).2.2.1 = some ⟨1, "B"⟩
    ∧ (app_feed_audio_azure "A" st (List.replicate 2048 0)).2.2.2 ≠ []
    ∧ st.silence_timer = true
    ∧ (app_stop_azure "A" st).silence_timer = false := by
  have hconn : ∀ d : Bytes,
      (app_feed_audio_azure "A"
        { ws := some ⟨1, "B"⟩, connection_open := true, audio_buffer := [],
          silence_timer := true, session_start_time := true, transcription_count := 0,
          current_transcript := "", socketio_set := true } d).2.2.1 = some ⟨1, "B"⟩ := by
    intro d
    simp [app_feed_audio_azure, send_audio_to_azure_openai]
  have hflush : ∀ d : Bytes,
      (app_feed_audio_azure "A"
        { ws := some ⟨1, "B"⟩, connection_open := true, audio_buffer := [],
          silence_timer := true, session_start_time := true, transcription_count := 0,
          current_transcript := "", socketio_set := true } d).2.2.2
      = (flushFrames AZURE_AUDIO_CHUNK_SIZE ([] ++ d)).1 := by
    intro d
    simp [app_feed_audio_azure, send_audio_to_azure_openai]
  refine ⟨by decide, hconn _, ?_, rfl, rfl⟩
  intro hnil
  rw [hflush] at hnil
  have hlen : ([] ++ List.replicate 2048 (0 : Nat)).length / AZURE_AUDIO_CHUNK_SIZE
      = 0 := by
    rw [← flushFrames_count AZURE_AUDIO_CHUNK_SIZE ([] ++ List.replicate 2048 0)
      (by decide), hnil]
    rfl
  rw [List.nil_append, List.length_replicate,
    show AZURE_AUDIO_CHUNK_SIZE = 2048 from rfl] at hlen
  exact absurd hlen (by decide)

/-- C1 (amended): the ElevenLabs handler keeps per-session state in a
registry keyed by session id, and there isolation holds — sending audio for
session A transmits frames only on A's socket and leaves B's entry
(including B's silence timer) untouched, any write-back of a mutated A
session (timer rearm, timeout fire, close) leaves B's entry untouched, and
closing A leaves B's entry untouched.  The Azure handler, by contrast,
shares one module-global connection, buffer and silence timer among all
clients, so isolation fails there (see the counterexample). -/
theorem claim_C1_elevenlabs_isolation (reg : Registry) (A B : String) (data : Bytes)
    (hne : B ≠ A) :
    lookupSession (send_audio_to_elevenlabs reg A data).2.1 B = lookupSession reg B
    ∧ (∀ f ∈ (send_audio_to_elevenlabs reg A data).2.2, f.1 = A)
    ∧ (∀ x : ElevenLabsSession,
        lookupSession (updateSession reg A x) B = lookupSession reg B)
    ∧ lookupSession (close_elevenlabs_connection reg A) B = lookupSession reg B := by
  refine ⟨?_, ?_, fun x => lookupSession_updateSession_ne reg A B x hne, ?_⟩
  · cases h : lookupSession reg A with
    | none => simp only [send_audio_to_elevenlabs, h]
    | some s =>
      cases hws : s.ws with
      | none => simp only [send_audio_to_elevenlabs, h, hws]
      | some c =>
        cases hopen : s.connection_open with
        | false =>
          simp [send_audio_to_elevenlabs, h, hws, hopen]
          exact lookupSession_updateSession_ne reg A B _ hne
        | true =>
          simp [send_audio_to_elevenlabs, h, hws, hopen]
          split
          · exact lookupSession_updateSession_ne reg A B _ hne
          · exact lookupSession_updateSession_ne reg A B _ hne
  · cases h : lookupSession reg A with
    | none =>
      simp only [send_audio_to_elevenlabs, h]
      intro f hf
      simp at hf
    | some s =>
      cases hws : s.ws with
      | none =>
        simp only [send_audio_to_elevenlabs, h, hws]
        intro f hf
        simp at hf
      | some c =>
        cases hopen : s.connection_open with
        | false =>
          intro f hf
          simp [send_audio_to_elevenlabs, h, hws, hopen] at hf
        | true =>
          intro f hf
          simp [send_audio_to_elevenlabs, h, hws, hopen, List.mem_map] at hf
          obtain ⟨g, -, rfl⟩ := hf
          rfl
  · cases h : lookupSession reg A with
    | none => simp only [close_elevenlabs_connection, h]
    | some s =>
      simp only [close_elevenlabs_connection, h]
      exact lookupSession_updateSession_ne reg A B _ hne

/-- C1 witness: the ElevenLabs isolation theorem applied to a concrete
two-session registry. -/
theorem claim_C1_elevenlabs_isolation_witness :
    ("B" : String) ≠ "A"
    ∧ (let reg : Registry := [("A", ElevenLabsSession.new "A"),
                              ("B", ElevenLabsSession.new "B")]
       lookupSession (send_audio_to_elevenlabs reg "A" [0, 1]).2.1 "B"
          = lookupSession reg "B"
       ∧ (∀ f ∈ (send_audio_to_elevenlabs reg "A" [0, 1]).2.2, f.1 = "A")
       ∧ (∀ x : ElevenLabsSession,
           lookupSession (updateSession reg "A" x) "B" = lookupSession reg "B")
       ∧ lookupSession (close_elevenlabs_connection reg "A") "B"
          = lookupSession reg "B") :=
  ⟨by decide,
   claim_C1_elevenlabs_isolation
     [("A", ElevenLabsSession.new "A"), ("B", ElevenLabsSession.new "B")]
     "A" "B" [0, 1] (by decide)⟩

/-- C2 counterexample: the Azure handler's silence-timeout notification is
emitted with no `room` argument — a broadcast to every connected client —
so the "addressed to exactly one session id, never broadcast" claim is
false on the Azure handler. -/
theorem claim_C2_counterexample :
    let st : AzureState :=
      { ws := some ⟨1, "B"⟩, connection_open := true, audio_buffer := [],
        silence_timer := true, session_start_time := true, transcription_count := 0,
        current_transcript := "", socketio_set := true }
    (handle_azure_silence_timeout st).2 = [⟨"silence_timeout", none⟩]
    ∧ ¬ (∀ e ∈ (handle_azure_silence_timeout st).2, e.room ≠ none) := by
  decide

/-- C2 (amended): the ElevenLabs silence-timeout handler emits exactly one
`silence_timeout` event, addressed via `room` to exactly the timed-out
session's own id; the Azure handler also emits exactly one `silence_timeout`
event when its socket handle is set, but with no room, broadcast to every
connected client. -/
theorem claim_C2_silence_timeout_scoped (s : ElevenLabsSession) (st : AzureState)
    (h : st.socketio_set = true) :
    (handle_elevenlabs_silence_timeout s).2 = [⟨"silence_timeout", some s.session_id⟩]
    ∧ (handle_azure_silence_timeout st).2 = [⟨"silence_timeout", none⟩] := by
  constructor
  · cases hstart : s.session_start_time <;>
      simp [handle_elevenlabs_silence_timeout, hstart, stop_elevenlabs_silence_timer]
  · cases hstart : st.session_start_time <;>
      simp [handle_azure_silence_timeout, hstart, stop_azure_silence_timer, h]

/-- C2 witness: the scoped-emission theorem applied to a concrete session
and Azure state. -/
theorem claim_C2_silence_timeout_scoped_witness :
    ({ ws := some ⟨1, "B"⟩, connection_open := true, audio_buffer := [],
       silence_timer := true, session_start_time := true, transcription_count := 0,
       current_transcript := "", socketio_set := true } : AzureState).socketio_set = true
    ∧ ((handle_elevenlabs_silence_timeout (ElevenLabsSession.new "A")).2
        = [⟨"silence_timeout", some (ElevenLabsSession.new "A").session_id⟩]
       ∧ (handle_azure_silence_timeout
           { ws := some ⟨1, "B"⟩, connection_open := true, audio_buffer := [],
             silence_timer := true, session_start_time := true, transcription_count := 0,
             current_transcript := "", socketio_set := true }).2
        = [⟨"silence_timeout", none⟩]) :=
  ⟨rfl, claim_C2_silence_timeout_scoped (ElevenLabsSession.new "A") _ rfl⟩

/-- C4 counterexample: the Azure `on_message` callback performs no check
that the delivering connection is still the current one, so a transcription
delta delivered by a superseded connection (id 1, while the current
connection has id 2) does change the transcript and does emit an update —
the stale-event-discard claim is false for message events. -/
theorem claim_C4_counterexample :
    let st : AzureState :=
      { ws := some ⟨2, "A"⟩, connection_open := true, audio_buffer := [],
        silence_timer := true, session_start_time := true, transcription_count := 0,
        current_transcript := "", socketio_set := true }
    let stale : AzureConn := ⟨1, "A"⟩
    st.ws ≠ some stale
    ∧ stale.connId < 2
    ∧ (azure_on_message_delta st stale "x").1.current_transcript = "x"
    ∧ (azure_on_message_delta st stale "x").1 ≠ st
    ∧ (azure_on_message_delta st stale "x").2 ≠ [] := by
  decide

/-- C4 (amended): the `on_open` callback of a superseded Azure connection
is discarded without any state change, but `on_message` events are not
filtered by connection identity at all — the handler's effect is the same
whichever connection delivered the message, so a superseded connection's
transcription event does mutate the transcript. -/
theorem claim_C4_stale_open_discarded (st : AzureState) (ws : AzureConn)
    (hstale : st.ws ≠ some ws) :
    azure_on_open st ws = st
    ∧ ∀ (ws' : AzureConn) (piece : String),
        azure_on_message_delta st ws piece = azure_on_message_delta st ws' piece := by
  constructor
  · rw [azure_on_open, if_pos (Or.inr hstale)]
  · intro ws' piece
    rfl

/-- C4 witness: the stale-open theorem applied to a concrete state whose
current connection has id 2 and a stale connection with id 1. -/
theorem claim_C4_stale_open_discarded_witness :
    (({ ws := some ⟨2, "A"⟩, connection_open := true, audio_buffer := [],
        silence_timer := true, session_start_time := true, transcription_count := 0,
        current_transcript := "", socketio_set := true } : AzureState).ws
      ≠ some ⟨1, "A"⟩)
    ∧ (azure_on_open
        { ws := some ⟨2, "A"⟩, connection_open := true, audio_buffer := [],
          silence_timer := true, session_start_time := true, transcription_count := 0,
          current_transcript := "", socketio_set := true } ⟨1, "A"⟩
        = { ws := some ⟨2, "A"⟩, connection_open := true, audio_buffer := [],
            silence_timer := true, session_start_time := true, transcription_count := 0,
            current_transcript := "", socketio_set := true }
       ∧ ∀ (ws' : AzureConn) (piece : String),
          azure_on_message_delta
            { ws := some ⟨2, "A"⟩, connection_open := true, audio_buffer := [],
              silence_timer := true, session_start_time := true, transcription_count := 0,
              current_transcript := "", socketio_set := true } ⟨1, "A"⟩ piece
          = azure_on_message_delta
              { ws := some ⟨2, "A"⟩, connection_open := true, audio_buffer := [],
                silence_timer := true, session_start_time := true, transcription_count := 0,
                current_transcript := "", socketio_set := true } ws' piece) :=
  ⟨by decide, claim_C4_stale_open_discarded _ ⟨1, "A"⟩ (by decide)⟩

/-- C6 counterexample: a `Final` event whose non-empty text is whitespace
only leaves a trailing space in the accumulated transcript, so after a
following partial the display is "hello " while accumulated-plus-segment
is "hello" — the display invariant, as stated for every transcript event,
is false. -/
theorem claim_C6_counterexample :
    (runMessages (ElevenLabsSession.new "A")
        [ElMessage.committed_transcript "hello",
         ElMessage.partial_transcript " "]).current_transcript
    ≠ specDisplay
        (runMessages (ElevenLabsSession.new "A")
          [ElMessage.committed_transcript "hello",
           ElMessage.partial_transcript " "]).accumulated_transcript
        (currentSegment
          [ElMessage.committed_transcript "hello", ElMessage.partial_transcript " "]) := by
  decide

/-- C6 (amended): after every transcript-event operation whose text is
empty or contains a non-whitespace character, the displayed transcript
equals the accumulated finalized text plus, when both parts are non-empty,
a single separating space, plus the current in-progress segment; events
with whitespace-only non-empty text break the exact equality.  In
particular Partial("hel") then Partial("hello") then Final("hello") from
empty state yields display = "hello", accumulated = "hello" and an empty
current segment. -/
theorem claim_C6_display_invariant (sid : String) (ms : List ElMessage)
    (hgood : ∀ m ∈ ms, goodText m) :
    ((runMessages (ElevenLabsSession.new sid) ms).current_transcript
      = specDisplay (runMessages (ElevenLabsSession.new sid) ms).accumulated_transcript
          (currentSegment ms))
    ∧ ((runMessages (ElevenLabsSession.new "A")
          [ElMessage.partial_transcript "hel", ElMessage.partial_transcript "hello",
           ElMessage.committed_transcript "hello"]).current_transcript = "hello"
       ∧ (runMessages (ElevenLabsSession.new "A")
          [ElMessage.partial_transcript "hel", ElMessage.partial_transcript "hello",
           ElMessage.committed_transcript "hello"]).accumulated_transcript = "hello"
       ∧ currentSegment
          [ElMessage.partial_transcript "hel", ElMessage.partial_transcript "hello",
           ElMessage.committed_transcript "hello"] = "") := by
  constructor
  · exact (display_invariant_trace ms (ElevenLabsSession.new sid) "" hgood
      (specDisplay_empty_seg "").symm rfl).1
  · exact ⟨by decide, by decide, by decide⟩

/-- C6 witness: the display invariant applied to the concrete trace of the
claim. -/
theorem claim_C6_display_invariant_witness :
    (∀ m ∈ [ElMessage.partial_transcript "hel", ElMessage.partial_transcript "hello",
            ElMessage.committed_transcript "hello"], goodText m)
    ∧ (((runMessages (ElevenLabsSession.new "A")
          [ElMessage.partial_transcript "hel", ElMessage.partial_transcript "hello",
           ElMessage.committed_transcript "hello"]).current_transcript
        = specDisplay
            (runMessages (ElevenLabsSession.new "A")
              [ElMessage.partial_transcript "hel", ElMessage.partial_transcript "hello",
               ElMessage.committed_transcript "hello"]).accumulated_transcript
            (currentSegment
              [ElMessage.partial_transcript "hel", ElMessage.partial_transcript "hello",
               ElMessage.committed_transcript "hello"]))
       ∧ ((runMessages (ElevenLabsSession.new "A")
            [ElMessage.partial_transcript "hel", ElMessage.partial_transcript "hello",
             ElMessage.committed_transcript "hello"]).current_transcript = "hello"
          ∧ (runMessages (ElevenLabsSession.new "A")
              [ElMessage.partial_transcript "hel", ElMessage.partial_transcript "hello",
               ElMessage.committed_transcript "hello"]).accumulated_transcript = "hello"
          ∧ currentSegment
              [ElMessage.partial_transcript "hel", ElMessage.partial_transcript "hello",
               ElMessage.committed_transcript "hello"] = "")) :=
  ⟨by decide,
   claim_C6_display_invariant "A"
     [ElMessage.partial_transcript "hel", ElMessage.partial_transcript "hello",
      ElMessage.committed_transcript "hello"] (by decide)⟩

/-- C7: on every reachable session state, a `Final(text)` event with
non-empty text makes the accumulated transcript the previous accumulated
transcript plus a single separating space plus the new text (both
stripped; no separator when the previous accumulated transcript was
empty), and the display equals the accumulated transcript; finalizing
"hello" then "world" from empty state yields accumulated "hello world". -/
theorem claim_C7_final_append (sid t : String) (ms : List ElMessage) (ht : t ≠ "") :
    ((handle_elevenlabs_message (runMessages (ElevenLabsSession.new sid) ms)
        (ElMessage.committed_transcript t)).1.accumulated_transcript
      = (if (runMessages (ElevenLabsSession.new sid) ms).accumulated_transcript = ""
         then pyStrip t
         else pyStrip (runMessages (ElevenLabsSession.new sid) ms).accumulated_transcript
              ++ " " ++ pyStrip t))
    ∧ ((handle_elevenlabs_message (runMessages (ElevenLabsSession.new sid) ms)
        (ElMessage.committed_transcript t)).1.current_transcript
      = (handle_elevenlabs_message (runMessages (ElevenLabsSession.new sid) ms)
        (ElMessage.committed_transcript t)).1.accumulated_transcript)
    ∧ (runMessages (ElevenLabsSession.new "A")
        [ElMessage.committed_transcript "hello",
         ElMessage.committed_transcript "world"]).accumulated_transcript
      = "hello world" := by
  have hinv := acc_invariant_trace ms (ElevenLabsSession.new sid) (Or.inl rfl)
  refine ⟨?_, ?_, by decide⟩
  · simp only [handle_elevenlabs_message, if_pos ht, reset_elevenlabs_silence_timer]
    rcases hinv with hA | hA
    · rw [if_neg (fun hand => hand.1 hA), if_pos hA]
    · by_cases hA0 : (runMessages (ElevenLabsSession.new sid) ms).accumulated_transcript
          = ""
      · rw [hA0] at hA
        exact absurd rfl hA
      · rw [if_pos ⟨hA0, hA⟩, if_neg hA0]
  · simp only [handle_elevenlabs_message, if_pos ht, reset_elevenlabs_silence_timer]

/-- C7 witness: the final-append theorem applied after one finalized
segment, with the claim's "hello"/"world" instance. -/
theorem claim_C7_final_append_witness :
    ("world" : String) ≠ ""
    ∧ (((handle_elevenlabs_message
          (runMessages (ElevenLabsSession.new "A") [ElMessage.committed_transcript "hello"])
          (ElMessage.committed_transcript "world")).1.accumulated_transcript
        = (if (runMessages (ElevenLabsSession.new "A")
                [ElMessage.committed_transcript "hello"]).accumulated_transcript = ""
           then pyStrip "world"
           else pyStrip (runMessages (ElevenLabsSession.new "A")
                  [ElMessage.committed_transcript "hello"]).accumulated_transcript
                ++ " " ++ pyStrip "world"))
       ∧ ((handle_elevenlabs_message
            (runMessages (ElevenLabsSession.new "A") [ElMessage.committed_transcript "hello"])
            (ElMessage.committed_transcript "world")).1.current_transcript
          = (handle_elevenlabs_message
              (runMessages (ElevenLabsSession.new "A") [ElMessage.committed_transcript "hello"])
              (ElMessage.committed_transcript "world")).1.accumulated_transcript)
       ∧ (runMessages (ElevenLabsSession.new "A")
            [ElMessage.committed_transcript "hello",
             ElMessage.committed_transcript "world"]).accumulated_transcript
          = "hello world") :=
  ⟨by decide,
   claim_C7_final_append "A" "world" [ElMessage.committed_transcript "hello"] (by decide)⟩

/-- C8 counterexample: stopping a registered session does not remove it
from the registry — after `close_elevenlabs_connection` the id is still
registered (only `cleanup_elevenlabs_session` deletes it). -/
theorem claim_C8_counterexample :
    lookupSession
      (close_elevenlabs_connection [("A", ElevenLabsSession.new "A")] "A") "A" ≠ none := by
  decide

/-- C8 (amended): for every registered session id, `stopSession`
(`close_elevenlabs_connection`) cancels the silence timer, discards the
buffered audio, drops the provider socket and clears the transcript state,
but leaves the id registered; the registry entry is removed only by
`cleanupSession` (`cleanup_elevenlabs_session`), after which the id is no
longer registered. -/
theorem claim_C8_stop_keeps_registration (reg : Registry) (sid : String)
    (s : ElevenLabsSession) (h : lookupSession reg sid = some s) :
    lookupSession (close_elevenlabs_connection reg sid) sid
      = some { s with stop_event := true, connection_open := false,
                      silence_timer := false, silence_timer_started := false,
                      audio_buffer := [], ws := none,
                      current_transcript := "", accumulated_transcript := "" }
    ∧ lookupSession (cleanup_elevenlabs_session reg sid) sid = none := by
  constructor
  · simp only [close_elevenlabs_connection, h]
    exact lookupSession_updateSession_self reg sid s _ h
  · simp only [cleanup_elevenlabs_session, h]
    exact lookupSession_eraseSession_self reg sid

/-- C8 witness: the theorem applied to a one-session registry. -/
theorem claim_C8_stop_keeps_registration_witness :
    lookupSession [("A", ElevenLabsSession.new "A")] "A" = some (ElevenLabsSession.new "A")
    ∧ (lookupSession
        (close_elevenlabs_connection [("A", ElevenLabsSession.new "A")] "A") "A"
        = some { ElevenLabsSession.new "A" with
                 stop_event := true,
                 connection_open := false, silence_timer := false,
                 silence_timer_started := false, audio_buffer := [], ws := none,
                 current_transcript := "", accumulated_transcript := "" }
       ∧ lookupSession
          (cleanup_elevenlabs_session [("A", ElevenLabsSession.new "A")] "A") "A" = none) :=
  ⟨by decide,
   claim_C8_stop_keeps_registration [("A", ElevenLabsSession.new "A")] "A"
     (ElevenLabsSession.new "A") (by decide)⟩

/-- C10 counterexample: `stopSession` followed by `cleanupSession` is not a
no-op — the cleanup removes the still-registered id from the registry,
changing observable state. -/
theorem claim_C10_counterexample :
    cleanup_elevenlabs_session
        (close_elevenlabs_connection [("A", ElevenLabsSession.new "A")] "A") "A"
      ≠ close_elevenlabs_connection [("A", ElevenLabsSession.new "A")] "A" := by
  decide

/-- C10 (amended): repeated `stopSession` calls after the first are no-ops,
and `stopSession` on an unknown id is a no-op that raises no error;
`cleanupSession` after a stop removes the session from the registry — an
observable change — and once the id is gone both further `cleanupSession`
and further `stopSession` calls are no-ops. -/
theorem claim_C10_stop_idempotent (reg : Registry) (sid : String) :
    close_elevenlabs_connection (close_elevenlabs_connection reg sid) sid
      = close_elevenlabs_connection reg sid
    ∧ (lookupSession reg sid = none → close_elevenlabs_connection reg sid = reg)
    ∧ cleanup_elevenlabs_session (cleanup_elevenlabs_session reg sid) sid
      = cleanup_elevenlabs_session reg sid
    ∧ close_elevenlabs_connection (cleanup_elevenlabs_session reg sid) sid
      = cleanup_elevenlabs_session reg sid
    ∧ lookupSession
        (cleanup_elevenlabs_session (close_elevenlabs_connection reg sid) sid) sid
      = none := by
  refine ⟨?_, ?_, ?_, ?_, ?_⟩
  · cases h : lookupSession reg sid with
    | none =>
      simp only [close_elevenlabs_connection, h]
    | some s =>
      simp only [close_elevenlabs_connection, h]
      rw [lookupSession_updateSession_self reg sid s _ h]
      exact updateSession_updateSession_self reg sid _
  · intro h
    simp only [close_elevenlabs_connection, h]
  · cases h : lookupSession reg sid with
    | none => simp only [cleanup_elevenlabs_session, h]
    | some s =>
      simp only [cleanup_elevenlabs_session, h]
      rw [lookupSession_eraseSession_self reg sid]
  · cases h : lookupSession reg sid with
    | none => simp only [cleanup_elevenlabs_session, h, close_elevenlabs_connection]
    | some s =>
      simp only [cleanup_elevenlabs_session, h, close_elevenlabs_connection]
      rw [lookupSession_eraseSession_self reg sid]
  · cases h : lookupSession reg sid with
    | none =>
      simp only [close_elevenlabs_connection, h, cleanup_elevenlabs_session]
    | some s =>
      simp only [close_elevenlabs_connection, h, cleanup_elevenlabs_session]
      rw [lookupSession_updateSession_self reg sid s _ h]
      exact lookupSession_eraseSession_self _ sid

/-- C10 witness: the idempotence theorem applied to a one-session
registry, discharging the unknown-id hypothesis at the empty registry. -/
theorem claim_C10_stop_idempotent_witness :
    (close_elevenlabs_connection
        (close_elevenlabs_connection [("A", ElevenLabsSession.new "A")] "A") "A"
      = close_elevenlabs_connection [("A", ElevenLabsSession.new "A")] "A")
    ∧ close_elevenlabs_connection [("A", ElevenLabsSession.new "A")] "B"
        = [("A", ElevenLabsSession.new "A")]
    ∧ lookupSession
        (cleanup_elevenlabs_session
          (close_elevenlabs_connection [("A", ElevenLabsSession.new "A")] "A") "A") "A"
      = none :=
  ⟨(claim_C10_stop_idempotent [("A", ElevenLabsSession.new "A")] "A").1,
   (claim_C10_stop_idempotent [("A", ElevenLabsSession.new "A")] "B").2.1 (by decide),
   (claim_C10_stop_idempotent [("A", ElevenLabsSession.new "A")] "A").2.2.2.2⟩

end RSTT
